import Mathlib

/-!
Verification of the NewIP TCP core (tcp_nip): a shallow embedding of the
state-machine, keepalive, ingress-dispatch, disconnect and hash-table
routines of `code/linux/net/newip/tcp_nip.c` and `ninet_hashtables.c`,
with theorems settling the specification claims about them.

Machine integers are modelled as `Nat`/`Int` with explicit wrap-around
(`% 2^32`) where the C code relies on unsigned overflow.  External
collaborators (hash function, jiffies clock, socket lookup) appear as
explicit parameters/oracles.
-/

namespace TcpNip

/-! ## TCP state codes (include/net/tcp_states.h) -/

def TCP_ESTABLISHED : Nat := 1
def TCP_SYN_SENT : Nat := 2
def TCP_SYN_RECV : Nat := 3
def TCP_FIN_WAIT1 : Nat := 4
def TCP_FIN_WAIT2 : Nat := 5
def TCP_TIME_WAIT : Nat := 6
def TCP_CLOSE : Nat := 7
def TCP_CLOSE_WAIT : Nat := 8
def TCP_LAST_ACK : Nat := 9
def TCP_LISTEN : Nat := 10
def TCP_CLOSING : Nat := 11
def TCP_NEW_SYN_RECV : Nat := 12
def TCP_MAX_STATES : Nat := 13

def TCP_STATE_MASK : Nat := 0xF
def TCP_ACTION_FIN : Nat := 1 <<< 7

/-- Errno values used by the embedded code paths. -/
def EINVAL : Int := 22
def ECONNRESET : Int := 104
def EADDRNOTAVAIL : Int := 99

/-! ## close(): the `new_state` transition table

`static const unsigned char new_state[16]` from tcp_nip.c.  Array slots
13..15 are not explicitly initialised in the C source; C semantics
zero-initialises them. -/

def new_state : Nat → Nat
  | 0 => TCP_CLOSE                              /- (Invalid) -/
  | 1 => TCP_FIN_WAIT1 ||| TCP_ACTION_FIN       /- TCP_ESTABLISHED -/
  | 2 => TCP_CLOSE                              /- TCP_SYN_SENT -/
  | 3 => TCP_FIN_WAIT1 ||| TCP_ACTION_FIN       /- TCP_SYN_RECV -/
  | 4 => TCP_FIN_WAIT1                          /- TCP_FIN_WAIT1 -/
  | 5 => TCP_FIN_WAIT2                          /- TCP_FIN_WAIT2 -/
  | 6 => TCP_CLOSE                              /- TCP_TIME_WAIT -/
  | 7 => TCP_CLOSE                              /- TCP_CLOSE -/
  | 8 => TCP_LAST_ACK ||| TCP_ACTION_FIN        /- TCP_CLOSE_WAIT -/
  | 9 => TCP_LAST_ACK                           /- TCP_LAST_ACK -/
  | 10 => TCP_CLOSE                             /- TCP_LISTEN -/
  | 11 => TCP_CLOSING                           /- TCP_CLOSING -/
  | 12 => TCP_CLOSE                             /- TCP_NEW_SYN_RECV, should not happen -/
  | _ => 0                                      /- zero-initialised tail of the array -/

/-- `tcp_nip_close_state`: reads the table, sets the masked next state on
the socket and reports whether a FIN action is requested.  Returned as
(next state, send FIN?). -/
def tcp_nip_close_state (state : Nat) : Nat × Bool :=
  let next := new_state state
  let ns := next &&& TCP_STATE_MASK
  (ns, next &&& TCP_ACTION_FIN ≠ 0)

/-- The close() transition table exactly as claim C2 words it: a second
definition written from the specification, to be compared with
`tcp_nip_close_state` (which is the source's). -/
def close_transition_spec (state : Nat) : Nat × Bool :=
  if state = TCP_ESTABLISHED then (TCP_FIN_WAIT1, true)
  else if state = TCP_SYN_RECV then (TCP_FIN_WAIT1, true)
  else if state = TCP_CLOSE_WAIT then (TCP_LAST_ACK, true)
  else if state = TCP_FIN_WAIT1 ∨ state = TCP_FIN_WAIT2 ∨
          state = TCP_CLOSING ∨ state = TCP_LAST_ACK then (state, false)
  else (TCP_CLOSE, false)

/-! ## Keepalive subsystem (tcp_nip_keepalive_para_update / _enable / _disable)

The per-socket fields the keepalive routines touch, plus two event-recording
fields: `ka_timer` holds the argument of the last
`inet_csk_reset_keepalive_timer` call, `prot_keepalive_last` the argument of
the last `sk->sk_prot->keepalive` call (an external collaborator). -/

def u32 (v : Nat) : Nat := v % 2 ^ 32

/-- Conversion of a `u32` value to a C `int` (two's complement). -/
def u32ToInt (v : Nat) : Int :=
  if u32 v < 2 ^ 31 then (u32 v : Int) else (u32 v : Int) - 2 ^ 32

structure KaSock where
  sk_state : Nat
  sock_keepopen : Bool
  keepalive_time : Nat
  keepalive_intvl : Nat
  keepalive_probes : Nat
  keepalive_time_bak : Nat
  keepalive_intvl_bak : Nat
  keepalive_probes_bak : Nat
  nip_keepalive_enable : Bool
  idle_ka_probes_out : Nat
  ka_timer : Option Nat
  prot_keepalive_last : Option Nat
deriving Repr, DecidableEq

/-- Module parameters of the NewIP stack (tcp_nip_parameter.c, settable at
runtime) together with the kernel tick constant `HZ`. -/
structure NipGlobals where
  hz : Nat
  g_nip_keepalive_time : Nat
  g_nip_keepalive_time_short_pkt : Nat
  g_nip_keepalive_intvl : Nat
  g_nip_idle_ka_probes_out : Nat
deriving Repr, DecidableEq

def MAX_NIP_TCP_KEEPIDLE : Int := 32767
def MAX_NIP_TCP_KEEPINTVL : Int := 32767
def MAX_NIP_TCP_KEEPCNT : Int := 255

/-- Lines 833-843 of the update: store the idle time and, when keepalive is
open and the socket is in neither Close nor Listen, re-arm the keepalive
timer with the remaining time.  `elapsed0` stands for the external clock
reading `keepalive_time_elapsed(tp)`. -/
def keepalive_commit_time (elapsed0 : Nat) (s : KaSock) (keepalive_time : Nat) : KaSock :=
  let s := { s with keepalive_time := u32 keepalive_time }
  if s.sock_keepopen ∧
      ¬((1 <<< s.sk_state) &&& ((1 <<< TCP_CLOSE) ||| (1 <<< TCP_LISTEN)) ≠ 0) then
    let elapsed := if s.keepalive_time > elapsed0 then s.keepalive_time - elapsed0 else 0
    { s with ka_timer := some elapsed }
  else s

/-- `tcp_nip_keepalive_para_update`: sequentially validates and commits the
three keepalive parameters, finishing by enabling SO_KEEPALIVE.  Returns
(errno, resulting socket). -/
def tcp_nip_keepalive_para_update (elapsed0 : Nat) (s : KaSock)
    (keepalive_time keepalive_intvl : Nat) (keepalive_probes : Nat) : Int × KaSock :=
  -- set keep idle (TCP_KEEPIDLE)
  let val := u32ToInt keepalive_time
  if val < 1 ∨ val > MAX_NIP_TCP_KEEPIDLE then (-EINVAL, s)
  else
    let s := keepalive_commit_time elapsed0 s keepalive_time
    -- set keep intvl (TCP_KEEPINTVL)
    let val := u32ToInt keepalive_intvl
    if val < 1 ∨ val > MAX_NIP_TCP_KEEPINTVL then (-EINVAL, s)
    else
      let s := { s with keepalive_intvl := u32 keepalive_intvl }
      -- set keep cnt (TCP_KEEPCNT)
      let val : Int := (keepalive_probes % 256 : Nat)
      if val < 1 ∨ val > MAX_NIP_TCP_KEEPCNT then (-EINVAL, s)
      else
        let s := { s with keepalive_probes := keepalive_probes % 256 }
        -- enable keepalive (SO_KEEPALIVE): sk->sk_prot->keepalive(sk, 1)
        let s := { s with prot_keepalive_last := some 1, sock_keepopen := true }
        (0, s)

def NIP_PKT_TOTAL_LEN_BOUNDARY : Nat := 100000
def NIP_KEEPALIVE_PROBES : Nat := 255

/-- `tcp_nip_keepalive_enable`.  `send_head` is `tcp_nip_send_head(sk)`
abstracted to the packet total length carried in its control block
(`NIPCB(skb)->pkt_total_len`); `none` models an empty write queue. -/
def tcp_nip_keepalive_enable (g : NipGlobals) (elapsed0 : Nat) (s : KaSock)
    (send_head : Option Nat) : KaSock :=
  match send_head with
  | none => s
  | some pkt_len =>
    let nip_keepalive_time :=
      if pkt_len < NIP_PKT_TOTAL_LEN_BOUNDARY then g.g_nip_keepalive_time_short_pkt
      else g.g_nip_keepalive_time
    if s.nip_keepalive_enable then
      -- If keepalive set by setsockopt, backup para and change para to nip para
      if s.keepalive_time > g.hz then
        let s := { s with
          keepalive_time_bak := s.keepalive_time,
          keepalive_probes_bak := s.keepalive_probes,
          keepalive_intvl_bak := s.keepalive_intvl }
        let s := { s with
          keepalive_time := nip_keepalive_time,
          keepalive_probes := NIP_KEEPALIVE_PROBES,
          keepalive_intvl := g.g_nip_keepalive_intvl }
        { s with ka_timer := some s.keepalive_time }
      else s
    else
      -- If keepalive set by setsockopt, backup para
      let s :=
        if s.sock_keepopen then
          { s with
            keepalive_time_bak := s.keepalive_time,
            keepalive_probes_bak := s.keepalive_probes,
            keepalive_intvl_bak := s.keepalive_intvl }
        else s
      -- change para to nip para
      let r := tcp_nip_keepalive_para_update elapsed0 s nip_keepalive_time
                 g.g_nip_keepalive_intvl NIP_KEEPALIVE_PROBES
      if r.1 ≠ 0 then r.2
      else { r.2 with nip_keepalive_enable := true }

/-- `tcp_nip_keepalive_disable`. -/
def tcp_nip_keepalive_disable (g : NipGlobals) (s : KaSock) : KaSock :=
  if ¬s.nip_keepalive_enable then s
  else if ¬s.sock_keepopen then { s with nip_keepalive_enable := false }
  else if s.idle_ka_probes_out < g.g_nip_idle_ka_probes_out then s
  else if s.keepalive_time_bak ≠ 0 then
    -- newip keepalive change to normal keepalive
    let s := { s with
      keepalive_time := s.keepalive_time_bak,
      keepalive_probes := s.keepalive_probes_bak,
      keepalive_intvl := s.keepalive_intvl_bak }
    { s with ka_timer := some s.keepalive_time }
  else
    let s := { s with
      keepalive_time_bak := 0, keepalive_probes_bak := 0, keepalive_intvl_bak := 0 }
    -- enable keepalive (SO_KEEPALIVE): sk->sk_prot->keepalive(sk, 0)
    { s with prot_keepalive_last := some 0, sock_keepopen := false,
             nip_keepalive_enable := false }

/-! Concrete sockets and globals used to exercise the keepalive claims. -/

/-- A socket carrying user-configured keepalive values, keepalive open,
idle profile not yet active. -/
def kaUserSock : KaSock :=
  { sk_state := TCP_ESTABLISHED, sock_keepopen := true,
    keepalive_time := 5000, keepalive_intvl := 60, keepalive_probes := 5,
    keepalive_time_bak := 0, keepalive_intvl_bak := 0, keepalive_probes_bak := 0,
    nip_keepalive_enable := false, idle_ka_probes_out := 0,
    ka_timer := none, prot_keepalive_last := none }

/-- Globals whose idle-profile keepalive time (200) exceeds HZ (100). -/
def kaGlobalsHi : NipGlobals :=
  { hz := 100, g_nip_keepalive_time := 200, g_nip_keepalive_time_short_pkt := 200,
    g_nip_keepalive_intvl := 25, g_nip_idle_ka_probes_out := 3 }

/-- A socket with the idle profile active and a keepalive time of 50. -/
def kaIdleSock : KaSock :=
  { kaUserSock with nip_keepalive_enable := true, keepalive_time := 50 }

/-- A socket with the idle profile active, keepalive open, the configured
number (3) of idle probes unanswered, and a non-zero backup. -/
def kaBakSock : KaSock :=
  { sk_state := TCP_ESTABLISHED, sock_keepopen := true,
    keepalive_time := 200, keepalive_intvl := 25, keepalive_probes := 255,
    keepalive_time_bak := 5000, keepalive_intvl_bak := 60, keepalive_probes_bak := 5,
    nip_keepalive_enable := true, idle_ka_probes_out := 3,
    ka_timer := none, prot_keepalive_last := none }

/-- A plain socket (keepalive closed) with idle time 10, used to exercise the
parameter-update validation. -/
def kaPlainSock : KaSock :=
  { kaUserSock with keepalive_time := 10, sock_keepopen := false }

/-! ## Ingress dispatcher (tcp_nip_rcv) and reset emission -/

def b2n (b : Bool) : Nat := if b then 1 else 0

/-- The TCP header fields `tcp_nip_rcv`/`tcp_nip_send_reset` read, with
sequence numbers already in host order (after `ntohl`). -/
structure TcpHdrIn where
  rst : Bool
  ack : Bool
  syn : Bool
  fin : Bool
  doff : Nat
  seq : Nat
  ack_seq : Nat
deriving Repr, DecidableEq

/-- The sequence/acknowledgment pair of an emitted reset segment. -/
structure RstSeg where
  seq : Nat
  ack_seq : Nat
deriving Repr, DecidableEq

/-- `tcp_nip_send_reset`: never sends a reset in response to a reset;
otherwise echoes the ack number as sequence, or acknowledges the received
segment (u32 arithmetic). -/
def tcp_nip_send_reset (th : TcpHdrIn) (skb_len : Nat) : Option RstSeg :=
  if th.rst then none
  else
    let seq := if th.ack then th.ack_seq else 0
    let ack_seq :=
      if th.ack then 0
      else u32 (th.seq + b2n th.syn + b2n th.fin + skb_len + (2 ^ 32 - u32 (th.doff * 4)))
    some { seq := seq, ack_seq := ack_seq }

/-- The looked-up socket as the dispatcher sees it, with the external calls
made on it (`tcp_filter`, lock ownership, backlog charge, request-socket
promotion) abstracted to oracle booleans. -/
structure RcvSock where
  sk_state : Nat
  filter_drops : Bool
  owned_by_user : Bool
  backlog_full : Bool
  checkreq_child_ok : Bool
  child_process_fails : Bool
deriving Repr, DecidableEq

/-- One inbound delivery: packet classification, checksum verdict, header,
length, and the connection-table lookup result (`__ninet_lookup_skb`). -/
structure RcvEnv where
  pkt_type_host : Bool
  checksum_ok : Bool
  th : TcpHdrIn
  skb_len : Nat
  lookup : Option RcvSock
deriving Repr, DecidableEq

/-- Observable outcome of `tcp_nip_rcv`: its return value, whether the
segment was freed on a discard path, the reset segment emitted (if any), and
whether the connection-table lookup was reached. -/
structure RcvOut where
  ret : Int
  dropped : Bool
  reset : Option RstSeg
  lookup_done : Bool
deriving Repr, DecidableEq

/-- `tcp_nip_rcv`, the ingress dispatcher.  `tcp_nip_do_rcv` always returns 0
in the source, so every delivered path yields return value 0. -/
def tcp_nip_rcv (e : RcvEnv) : RcvOut :=
  if ¬e.pkt_type_host then
    { ret := 0, dropped := true, reset := none, lookup_done := false }
  else if ¬e.checksum_ok then
    { ret := 0, dropped := true, reset := none, lookup_done := false }
  else if e.th.doff < 5 then  -- sizeof(struct tcphdr) / 4
    { ret := 0, dropped := true, reset := none, lookup_done := false }
  else
    match e.lookup with
    | none =>
      -- no_tcp_socket: checksum checked, send reset back, then discard
      { ret := 0, dropped := true, reset := tcp_nip_send_reset e.th e.skb_len,
        lookup_done := true }
    | some sk =>
      if sk.sk_state = TCP_TIME_WAIT then
        { ret := 0, dropped := true, reset := none, lookup_done := true }
      else if sk.sk_state = TCP_NEW_SYN_RECV then
        if sk.filter_drops ∨ ¬sk.checkreq_child_ok then
          { ret := 0, dropped := true, reset := none, lookup_done := true }
        else if sk.child_process_fails then
          { ret := 0, dropped := true, reset := none, lookup_done := true }
        else
          { ret := 0, dropped := false, reset := none, lookup_done := true }
      else if sk.filter_drops then
        { ret := 0, dropped := true, reset := none, lookup_done := true }
      else if sk.sk_state = TCP_LISTEN then
        { ret := 0, dropped := false, reset := none, lookup_done := true }
      else if ¬sk.owned_by_user then
        { ret := 0, dropped := false, reset := none, lookup_done := true }
      else if sk.backlog_full then
        { ret := 0, dropped := true, reset := none, lookup_done := true }
      else
        { ret := 0, dropped := false, reset := none, lookup_done := true }

/-! ## disconnect() -/

/-- `tcp_nip_need_reset`: states needing RST on abort per RFC793. -/
def tcp_nip_need_reset (state : Nat) : Bool :=
  (1 <<< state) &&&
    ((1 <<< TCP_ESTABLISHED) ||| (1 <<< TCP_CLOSE_WAIT) ||| (1 <<< TCP_FIN_WAIT1) |||
     (1 <<< TCP_FIN_WAIT2) ||| (1 <<< TCP_SYN_RECV)) != 0

/-- The per-connection fields `tcp_nip_disconnect` touches. -/
structure DisSock where
  sk_state : Nat
  snd_nxt : Nat
  write_seq : Nat
  max_window : Nat
  snd_cwnd : Nat
  srtt_us : Nat
  sk_err : Int
  inet_dport : Nat
  sk_shutdown : Nat
  icsk_probes_out : Nat
  packets_out : Nat
  receive_queue : List Nat
  write_queue : List Nat
  send_head : Option Nat
deriving Repr, DecidableEq

/-- Result of disconnect(): errno, final socket, and the externally visible
actions (active reset emitted, listening stopped). -/
structure DisResult where
  err : Int
  sk : DisSock
  reset_sent : Bool
  listen_stopped : Bool
deriving Repr, DecidableEq

/-- `tcp_nip_disconnect`. -/
def tcp_nip_disconnect (s : DisSock) : DisResult :=
  let old_state := s.sk_state
  let s := if old_state ≠ TCP_CLOSE then { s with sk_state := TCP_CLOSE } else s
  let listen_stopped : Bool := old_state == TCP_LISTEN
  let reset_sent : Bool :=
    !listen_stopped &&
      (tcp_nip_need_reset old_state ||
        (s.snd_nxt != s.write_seq &&
          (1 <<< old_state) &&& ((1 <<< TCP_CLOSING) ||| (1 <<< TCP_LAST_ACK)) != 0))
  let s :=
    if reset_sent then { s with sk_err := ECONNRESET }
    else if !listen_stopped && old_state == TCP_SYN_SENT then { s with sk_err := ECONNRESET }
    else s
  -- clear timers, purge receive and write queues
  let s := { s with receive_queue := [], write_queue := [] }
  let s := { s with inet_dport := 0, sk_shutdown := 0, srtt_us := 0 }
  let s := { s with write_seq := u32 (s.write_seq + s.max_window + 2) }
  let s := if s.write_seq = 0 then { s with write_seq := 1 } else s
  let s := { s with snd_cwnd := 2, icsk_probes_out := 0, packets_out := 0 }
  let s := { s with send_head := none }
  { err := 0, sk := s, reset_sent := reset_sent, listen_stopped := listen_stopped }

/-! ## Established-connection hash table -/

/-- The 4-tuple plus bound device identifying an established connection. -/
structure Quad where
  laddr : Nat
  raddr : Nat
  lport : Nat
  rport : Nat
  dif : Int
deriving Repr, DecidableEq

/-- An entry on an ehash bucket chain: the cached full hash and the identity
the socket was committed with. -/
structure EhashEntry where
  sk_hash : Nat
  quad : Quad
deriving Repr, DecidableEq

/-- The socket fields `__ninet_check_established` reads and commits. -/
structure EstSock where
  nip_rcv_saddr : Nat
  nip_daddr : Nat
  inet_dport : Nat
  inet_num : Nat
  inet_sport : Nat
  sk_hash : Nat
  sk_bound_dev_if : Int
deriving Repr, DecidableEq

/-- Modelled from the spec: `NINET_MATCH` (defined in ninet_hashtables.h,
which is not under src/) — the established table is "keyed by the full
4-tuple (src addr, src port, dst addr, dst port) plus device index", so a
candidate matches exactly when its stored identity equals the probe's. -/
def NINET_MATCH (e : EhashEntry) (q : Quad) : Bool := e.quad == q

/-- The identity `__ninet_check_established` probes for: local address is
`sk_nip_rcv_saddr`, remote address `sk_nip_daddr`, local port the `lport`
argument, remote port `inet_dport`, device `sk_bound_dev_if`. -/
def probeQuad (sk : EstSock) (lport : Nat) : Quad :=
  { laddr := sk.nip_rcv_saddr, raddr := sk.nip_daddr,
    lport := lport, rport := sk.inet_dport, dif := sk.sk_bound_dev_if }

/-- `__ninet_check_established`: scan the bucket chain (under its shard lock)
for an entry with the same hash matching the same identity; on collision fail
with `-EADDRNOTAVAIL` leaving everything untouched, otherwise commit the port
fields and hash on the socket and link the entry at the head of the chain.
`ehashfn` abstracts the external `ninet_ehashfn`. -/
def __ninet_check_established (ehashfn : Quad → Nat) (chain : List EhashEntry)
    (sk : EstSock) (lport : Nat) : Int × List EhashEntry × EstSock :=
  let q := probeQuad sk lport
  let hash := ehashfn q
  if chain.any (fun e => e.sk_hash == hash && NINET_MATCH e q) then
    (-EADDRNOTAVAIL, chain, sk)
  else
    -- Must record num and sport now.
    let sk := { sk with inet_num := lport, inet_sport := lport, sk_hash := hash }
    (0, { sk_hash := hash, quad := q } :: chain, sk)

/-! ## ninet_unhash -/

/-- The hash-table state `ninet_unhash` operates on: the socket's membership
flags and the three structures (listening bucket, secondary port-addr bucket,
established chain), each as the list of socket ids it holds. -/
structure UnhashSt where
  sk_state : Nat
  sk_id : Nat
  sk_hashed : Bool
  in_lhash2 : Bool
  lhash2_exists : Bool
  listening : List Nat
  lhash2 : List Nat
  ehash : List Nat
  listening_count : Nat
  lhash2_count : Nat
  prot_inuse : Int
deriving Repr, DecidableEq

/-- `ninet_unhash2`: remove the socket from the secondary listening bucket
when that structure exists and the socket is on it. -/
def ninet_unhash2 (st : UnhashSt) : UnhashSt :=
  if ¬st.lhash2_exists ∨ ¬st.in_lhash2 then st
  else
    { st with lhash2 := st.lhash2.erase st.sk_id, in_lhash2 := false,
              lhash2_count := st.lhash2_count - 1 }

/-- `ninet_unhash`: no-op on an already-unhashed socket (checked again after
taking the bucket lock); otherwise remove the socket from the listening
structures (when listening) and delete and re-initialise its chain node. -/
def ninet_unhash (st : UnhashSt) : UnhashSt :=
  if ¬st.sk_hashed then st
  else if ¬st.sk_hashed then st  -- re-check under the bucket lock
  else
    let ilb := st.sk_state = TCP_LISTEN
    let st :=
      if ilb then
        let st := ninet_unhash2 st
        { st with listening_count := st.listening_count - 1 }
      else st
    -- __sk_nulls_del_node_init_rcu: unlink from whichever chain holds the node
    { st with listening := st.listening.erase st.sk_id,
              ehash := st.ehash.erase st.sk_id,
              sk_hashed := false,
              prot_inuse := st.prot_inuse - 1 }

/-! Concrete inputs used to exercise the dispatcher, disconnect and
hash-table claims. -/

/-- A plain non-RST data segment header. -/
def rcvHdrEx : TcpHdrIn :=
  { rst := false, ack := false, syn := true, fin := false,
    doff := 5, seq := 100, ack_seq := 0 }

/-- An inbound delivery failing checksum verification. -/
def rcvEnvChkFail : RcvEnv :=
  { pkt_type_host := true, checksum_ok := false, th := rcvHdrEx,
    skb_len := 40, lookup := none }

/-- A checksum-valid inbound delivery matching no connection. -/
def rcvEnvNoSock : RcvEnv :=
  { pkt_type_host := true, checksum_ok := true, th := rcvHdrEx,
    skb_len := 40, lookup := none }

/-- An established connection with one unacknowledged byte. -/
def disSockEx : DisSock :=
  { sk_state := TCP_ESTABLISHED, snd_nxt := 11, write_seq := 12,
    max_window := 1000, snd_cwnd := 10, srtt_us := 5, sk_err := 0,
    inet_dport := 80, sk_shutdown := 0, icsk_probes_out := 1, packets_out := 1,
    receive_queue := [1], write_queue := [2], send_head := some 2 }

/-- A concrete stand-in for the external `ninet_ehashfn`. -/
def ehashfnEx (q : Quad) : Nat := q.laddr + 3 * q.raddr + 5 * q.lport + 7 * q.rport

/-- A socket about to be committed into the established table. -/
def estSockEx : EstSock :=
  { nip_rcv_saddr := 21, nip_daddr := 42, inet_dport := 80,
    inet_num := 0, inet_sport := 0, sk_hash := 0, sk_bound_dev_if := 1 }

/-- A hashed listening socket present in the listening structures. -/
def unhashStEx : UnhashSt :=
  { sk_state := TCP_LISTEN, sk_id := 4, sk_hashed := true, in_lhash2 := true,
    lhash2_exists := true, listening := [4, 9], lhash2 := [4], ehash := [],
    listening_count := 2, lhash2_count := 1, prot_inuse := 2 }

end TcpNip

/-- C10: keepalive enable() on a socket with an empty write queue (no send
head) returns immediately: no keepalive parameter, backup field, timer or
idle-profile flag changes. -/
theorem keepalive_enable_no_send_head (g : TcpNip.NipGlobals) (elapsed0 : Nat)
    (s : TcpNip.KaSock) :
    TcpNip.tcp_nip_keepalive_enable g elapsed0 s none = s := rfl

/-- C1 counterexample: with idle-profile keepalive time 200 above HZ = 100, a
second enable() while the idle profile is active overwrites the backed-up
user idle time (5000) with the idle-profile value (200). -/
theorem keepalive_enable_twice_overwrites_backup :
    (TcpNip.tcp_nip_keepalive_enable TcpNip.kaGlobalsHi 0
        (TcpNip.tcp_nip_keepalive_enable TcpNip.kaGlobalsHi 0 TcpNip.kaUserSock
          (some 150000)) (some 150000)).keepalive_time_bak = 200 ∧
    (TcpNip.tcp_nip_keepalive_enable TcpNip.kaGlobalsHi 0 TcpNip.kaUserSock
        (some 150000)).keepalive_time_bak = 5000 := by
  constructor <;> rfl

/-- C1 (amended): while the idle profile is active, enable() leaves the whole
socket (in particular the backup fields) unchanged when the keepalive time
currently in effect is at most HZ; when it exceeds HZ, enable() overwrites
the backup fields with the currently active values. -/
theorem keepalive_enable_second_call (g : TcpNip.NipGlobals) (elapsed0 pkt_len : Nat)
    (s : TcpNip.KaSock) (hflag : s.nip_keepalive_enable = true) :
    (s.keepalive_time ≤ g.hz →
      TcpNip.tcp_nip_keepalive_enable g elapsed0 s (some pkt_len) = s) ∧
    (g.hz < s.keepalive_time →
      (TcpNip.tcp_nip_keepalive_enable g elapsed0 s (some pkt_len)).keepalive_time_bak
          = s.keepalive_time ∧
      (TcpNip.tcp_nip_keepalive_enable g elapsed0 s (some pkt_len)).keepalive_probes_bak
          = s.keepalive_probes ∧
      (TcpNip.tcp_nip_keepalive_enable g elapsed0 s (some pkt_len)).keepalive_intvl_bak
          = s.keepalive_intvl) := by
  unfold TcpNip.tcp_nip_keepalive_enable
  simp only [hflag, if_true]
  constructor
  · intro hle
    have : ¬ s.keepalive_time > g.hz := by omega
    simp [this]
  · intro hgt
    have : s.keepalive_time > g.hz := hgt
    simp [this]

/-- Witness for C1 (amended): a socket with the idle profile active and
keepalive time 50 ≤ HZ = 100 is left unchanged by enable(). -/
theorem keepalive_enable_second_call_witness :
    TcpNip.kaIdleSock.nip_keepalive_enable = true ∧
    TcpNip.kaIdleSock.keepalive_time ≤ TcpNip.kaGlobalsHi.hz ∧
    TcpNip.tcp_nip_keepalive_enable TcpNip.kaGlobalsHi 0 TcpNip.kaIdleSock
        (some 150000) = TcpNip.kaIdleSock :=
  ⟨by decide, by decide,
    (keepalive_enable_second_call TcpNip.kaGlobalsHi 0 150000 TcpNip.kaIdleSock
      (by decide)).1 (by decide)⟩


/-- C2: close() determines its state transition from a lookup table over the
current state: Established and SynRecv map to FinWait1 sending a FIN,
CloseWait maps to LastAck sending a FIN, FinWait1/FinWait2/Closing/LastAck
map to themselves without a FIN, and every other state (invalid, SynSent,
TimeWait, Closed, Listen, new-SYN-received) maps to Closed without a FIN. -/
theorem close_state_matches_spec_table (s : Nat) (hs : s < TcpNip.TCP_MAX_STATES) :
    TcpNip.tcp_nip_close_state s = TcpNip.close_transition_spec s := by
  have h13 : s < 13 := hs
  interval_cases s <;> decide

/-- Witness for C2: the table agreement evaluated at the Established state. -/
theorem close_state_matches_spec_table_witness :
    TcpNip.TCP_ESTABLISHED < TcpNip.TCP_MAX_STATES ∧
    TcpNip.tcp_nip_close_state TcpNip.TCP_ESTABLISHED =
      TcpNip.close_transition_spec TcpNip.TCP_ESTABLISHED :=
  ⟨by decide, close_state_matches_spec_table TcpNip.TCP_ESTABLISHED (by decide)⟩

/-- C3 counterexample: with backed-up user values present (idle time 5000) and
3 idle probes unanswered (the configured number), disable() restores the user
values but leaves the backup fields and the idle-profile flag set, contrary
to the claim that both are cleared in all cases. -/
theorem keepalive_disable_leaves_backup_and_flag :
    (TcpNip.tcp_nip_keepalive_disable TcpNip.kaGlobalsHi TcpNip.kaBakSock).keepalive_time
        = 5000 ∧
    (TcpNip.tcp_nip_keepalive_disable TcpNip.kaGlobalsHi
        TcpNip.kaBakSock).keepalive_time_bak = 5000 ∧
    (TcpNip.tcp_nip_keepalive_disable TcpNip.kaGlobalsHi
        TcpNip.kaBakSock).nip_keepalive_enable = true := by
  refine ⟨?_, ?_, ?_⟩ <;> rfl

/-- C3 (amended): once the configured number of idle-profile probes have gone
unanswered (with the idle profile active and keepalive open), disable()
behaves as follows: if backed-up user values exist they are restored and the
keepalive timer re-armed, but the backup fields and the idle-profile flag are
left set; only when no backup exists (backed-up time zero) are the backup
fields cleared to zero, keepalive turned off, and the idle-profile flag
cleared. -/
theorem keepalive_disable_behavior (g : TcpNip.NipGlobals) (s : TcpNip.KaSock)
    (h1 : s.nip_keepalive_enable = true) (h2 : s.sock_keepopen = true)
    (h3 : g.g_nip_idle_ka_probes_out ≤ s.idle_ka_probes_out) :
    (s.keepalive_time_bak ≠ 0 →
      TcpNip.tcp_nip_keepalive_disable g s =
        { s with keepalive_time := s.keepalive_time_bak,
                 keepalive_probes := s.keepalive_probes_bak,
                 keepalive_intvl := s.keepalive_intvl_bak,
                 ka_timer := some s.keepalive_time_bak }) ∧
    (s.keepalive_time_bak = 0 →
      TcpNip.tcp_nip_keepalive_disable g s =
        { s with keepalive_probes_bak := 0,
                 keepalive_intvl_bak := 0,
                 prot_keepalive_last := some 0,
                 sock_keepopen := false,
                 nip_keepalive_enable := false }) := by
  have hlt : ¬ s.idle_ka_probes_out < g.g_nip_idle_ka_probes_out := by omega
  constructor
  · intro hbak
    simp [TcpNip.tcp_nip_keepalive_disable, h1, h2, hlt, hbak]
  · intro hbak
    simp [TcpNip.tcp_nip_keepalive_disable, h1, h2, hlt, hbak]

/-- Witness for C3 (amended): the restore branch evaluated on the concrete
backed-up socket. -/
theorem keepalive_disable_behavior_witness :
    TcpNip.kaBakSock.nip_keepalive_enable = true ∧
    TcpNip.kaBakSock.sock_keepopen = true ∧
    TcpNip.kaGlobalsHi.g_nip_idle_ka_probes_out ≤ TcpNip.kaBakSock.idle_ka_probes_out ∧
    TcpNip.tcp_nip_keepalive_disable TcpNip.kaGlobalsHi TcpNip.kaBakSock =
      { TcpNip.kaBakSock with
          keepalive_time := TcpNip.kaBakSock.keepalive_time_bak,
          keepalive_probes := TcpNip.kaBakSock.keepalive_probes_bak,
          keepalive_intvl := TcpNip.kaBakSock.keepalive_intvl_bak,
          ka_timer := some TcpNip.kaBakSock.keepalive_time_bak } :=
  ⟨by decide, by decide, by decide,
    (keepalive_disable_behavior TcpNip.kaGlobalsHi TcpNip.kaBakSock
      (by decide) (by decide) (by decide)).1 (by decide)⟩

/-- C4 counterexample: updating with a valid idle time (20) but an invalid
interval (0) returns the invalid-argument error, yet the connection's
keepalive idle time has changed from 10 to 20: state is not left unchanged. -/
theorem keepalive_para_update_partial_commit :
    (TcpNip.tcp_nip_keepalive_para_update 0 TcpNip.kaPlainSock 20 0 5).1
        = -TcpNip.EINVAL ∧
    (TcpNip.tcp_nip_keepalive_para_update 0 TcpNip.kaPlainSock 20 0 5).2.keepalive_time
        = 20 ∧
    TcpNip.kaPlainSock.keepalive_time = 10 := by
  refine ⟨?_, ?_, ?_⟩ <;> rfl

/-- C4 (amended): the keepalive parameter update validates sequentially —
idle time in [1, 32767], then interval in [1, 32767], then probe count in
[1, 255] — returning an invalid-argument error on the first failure.  An
out-of-range idle time leaves all state unchanged; an out-of-range interval
leaves the already-committed idle time (and possibly re-armed timer) in
place; an out-of-range probe count additionally leaves the interval
committed. -/
theorem keepalive_para_update_validation (elapsed0 : Nat) (s : TcpNip.KaSock)
    (time intvl probes : Nat) :
    ((TcpNip.u32ToInt time < 1 ∨ TcpNip.u32ToInt time > TcpNip.MAX_NIP_TCP_KEEPIDLE) →
      TcpNip.tcp_nip_keepalive_para_update elapsed0 s time intvl probes
        = (-TcpNip.EINVAL, s)) ∧
    (1 ≤ TcpNip.u32ToInt time → TcpNip.u32ToInt time ≤ TcpNip.MAX_NIP_TCP_KEEPIDLE →
      (TcpNip.u32ToInt intvl < 1 ∨ TcpNip.u32ToInt intvl > TcpNip.MAX_NIP_TCP_KEEPINTVL) →
      TcpNip.tcp_nip_keepalive_para_update elapsed0 s time intvl probes
        = (-TcpNip.EINVAL, TcpNip.keepalive_commit_time elapsed0 s time)) ∧
    (1 ≤ TcpNip.u32ToInt time → TcpNip.u32ToInt time ≤ TcpNip.MAX_NIP_TCP_KEEPIDLE →
      1 ≤ TcpNip.u32ToInt intvl → TcpNip.u32ToInt intvl ≤ TcpNip.MAX_NIP_TCP_KEEPINTVL →
      probes % 256 = 0 →
      TcpNip.tcp_nip_keepalive_para_update elapsed0 s time intvl probes
        = (-TcpNip.EINVAL,
            { TcpNip.keepalive_commit_time elapsed0 s time with
                keepalive_intvl := TcpNip.u32 intvl })) := by
  refine ⟨?_, ?_, ?_⟩
  · intro hout
    simp only [TcpNip.tcp_nip_keepalive_para_update]
    rw [if_pos hout]
  · intro ht1 ht2 hout
    simp only [TcpNip.tcp_nip_keepalive_para_update]
    rw [if_neg (by omega), if_pos hout]
  · intro ht1 ht2 hi1 hi2 hp
    simp only [TcpNip.tcp_nip_keepalive_para_update]
    rw [if_neg (by omega), if_neg (by omega), if_pos (by simp [hp])]

/-- Witness for C4 (amended): valid idle time 20, invalid interval 0 on the
concrete plain socket. -/
theorem keepalive_para_update_validation_witness :
    (1 : Int) ≤ TcpNip.u32ToInt 20 ∧
    TcpNip.u32ToInt 20 ≤ TcpNip.MAX_NIP_TCP_KEEPIDLE ∧
    TcpNip.u32ToInt 0 < 1 ∧
    TcpNip.tcp_nip_keepalive_para_update 0 TcpNip.kaPlainSock 20 0 5
      = (-TcpNip.EINVAL, TcpNip.keepalive_commit_time 0 TcpNip.kaPlainSock 20) :=
  ⟨by decide, by decide, by decide,
    (keepalive_para_update_validation 0 TcpNip.kaPlainSock 20 0 5).2.1
      (by decide) (by decide) (Or.inl (by decide))⟩

/-- C5: an inbound local-host segment whose checksum does not verify is
dropped silently before any connection lookup: the segment is freed, no
reset is emitted, the lookup is never reached, and the return value is 0 (no
error surfaced). -/
theorem rcv_checksum_fail_silent_drop (e : TcpNip.RcvEnv)
    (h1 : e.pkt_type_host = true) (h2 : e.checksum_ok = false) :
    TcpNip.tcp_nip_rcv e =
      { ret := 0, dropped := true, reset := none, lookup_done := false } := by
  simp [TcpNip.tcp_nip_rcv, h1, h2]

/-- Witness for C5: the concrete checksum-failing delivery. -/
theorem rcv_checksum_fail_silent_drop_witness :
    TcpNip.rcvEnvChkFail.pkt_type_host = true ∧
    TcpNip.rcvEnvChkFail.checksum_ok = false ∧
    TcpNip.tcp_nip_rcv TcpNip.rcvEnvChkFail =
      { ret := 0, dropped := true, reset := none, lookup_done := false } :=
  ⟨by decide, by decide,
    rcv_checksum_fail_silent_drop TcpNip.rcvEnvChkFail (by decide) (by decide)⟩

/-- C6: a checksum-valid, well-formed segment matching no connection causes a
reset to be emitted and the segment to be dropped with return value 0 —
except that no reset is ever sent when the segment itself carries RST. -/
theorem rcv_no_sock_resets (e : TcpNip.RcvEnv)
    (h1 : e.pkt_type_host = true) (h2 : e.checksum_ok = true)
    (h3 : 5 ≤ e.th.doff) (h4 : e.lookup = none) :
    TcpNip.tcp_nip_rcv e =
      { ret := 0, dropped := true, reset := TcpNip.tcp_nip_send_reset e.th e.skb_len,
        lookup_done := true } ∧
    (TcpNip.tcp_nip_rcv e).reset.isSome = !e.th.rst := by
  have hdoff : ¬ e.th.doff < 5 := by omega
  have hmain : TcpNip.tcp_nip_rcv e =
      { ret := 0, dropped := true, reset := TcpNip.tcp_nip_send_reset e.th e.skb_len,
        lookup_done := true } := by
    simp [TcpNip.tcp_nip_rcv, h1, h2, hdoff, h4]
  refine ⟨hmain, ?_⟩
  rw [hmain]
  cases hrst : e.th.rst <;> simp [TcpNip.tcp_nip_send_reset, hrst]

/-- Witness for C6: the concrete no-matching-connection delivery; the
segment is not an RST, so a reset acknowledging it is emitted. -/
theorem rcv_no_sock_resets_witness :
    TcpNip.rcvEnvNoSock.pkt_type_host = true ∧
    TcpNip.rcvEnvNoSock.checksum_ok = true ∧
    5 ≤ TcpNip.rcvEnvNoSock.th.doff ∧
    TcpNip.rcvEnvNoSock.lookup = none ∧
    (TcpNip.tcp_nip_rcv TcpNip.rcvEnvNoSock).reset.isSome =
      !TcpNip.rcvEnvNoSock.th.rst :=
  ⟨by decide, by decide, by decide, by decide,
    (rcv_no_sock_resets TcpNip.rcvEnvNoSock (by decide) (by decide) (by decide)
      (by decide)).2⟩

/-- C7: disconnect() forces the state to Closed from every starting state,
and emits a reset exactly when the prior state is one of Established,
CloseWait, FinWait1, FinWait2, SynRecv, or when unacknowledged data exists
(snd_nxt differs from write_seq) and the prior state is Closing or LastAck. -/
theorem disconnect_forces_close_and_reset (s : TcpNip.DisSock)
    (hst : s.sk_state < TcpNip.TCP_MAX_STATES) :
    (TcpNip.tcp_nip_disconnect s).sk.sk_state = TcpNip.TCP_CLOSE ∧
    ((TcpNip.tcp_nip_disconnect s).reset_sent = true ↔
      (s.sk_state = TcpNip.TCP_ESTABLISHED ∨ s.sk_state = TcpNip.TCP_CLOSE_WAIT ∨
       s.sk_state = TcpNip.TCP_FIN_WAIT1 ∨ s.sk_state = TcpNip.TCP_FIN_WAIT2 ∨
       s.sk_state = TcpNip.TCP_SYN_RECV) ∨
      (s.snd_nxt ≠ s.write_seq ∧
        (s.sk_state = TcpNip.TCP_CLOSING ∨ s.sk_state = TcpNip.TCP_LAST_ACK))) := by
  obtain ⟨st, sn, ws, mw, cw, sr, er, dp, sh, po, pk, rq, wq, shd⟩ := s
  have h13 : st < 13 := hst
  simp only [TcpNip.tcp_nip_disconnect, TcpNip.tcp_nip_need_reset]
  interval_cases st <;>
    by_cases hne : sn = ws <;>
      simp [hne, apply_ite TcpNip.DisSock.sk_state,
        TcpNip.TCP_ESTABLISHED, TcpNip.TCP_SYN_SENT, TcpNip.TCP_SYN_RECV,
        TcpNip.TCP_FIN_WAIT1, TcpNip.TCP_FIN_WAIT2, TcpNip.TCP_TIME_WAIT,
        TcpNip.TCP_CLOSE, TcpNip.TCP_CLOSE_WAIT, TcpNip.TCP_LAST_ACK,
        TcpNip.TCP_LISTEN, TcpNip.TCP_CLOSING, TcpNip.TCP_NEW_SYN_RECV] <;>
      decide

/-- Witness for C7: disconnect() on the concrete Established socket closes
it; its prior state is in the reset set, so a reset is emitted. -/
theorem disconnect_forces_close_and_reset_witness :
    TcpNip.disSockEx.sk_state < TcpNip.TCP_MAX_STATES ∧
    (TcpNip.tcp_nip_disconnect TcpNip.disSockEx).sk.sk_state = TcpNip.TCP_CLOSE ∧
    (TcpNip.tcp_nip_disconnect TcpNip.disSockEx).reset_sent = true :=
  ⟨by decide,
    (disconnect_forces_close_and_reset TcpNip.disSockEx (by decide)).1,
    (disconnect_forces_close_and_reset TcpNip.disSockEx (by decide)).2.mpr
      (Or.inl (Or.inl (by decide)))⟩

/-- C8: insertion into the established table scans the bucket chain for an
entry with the identical 4-tuple-plus-device identity; on a collision it
fails with the address-unavailable error and modifies neither the chain nor
the socket's port fields; otherwise it commits the local port, source port
and hash on the socket, links the new entry, and returns success.  The
well-formedness hypothesis states that every chain entry caches the hash of
its own identity, as insertion establishes. -/
theorem check_established_unique (ehashfn : TcpNip.Quad → Nat)
    (chain : List TcpNip.EhashEntry) (sk : TcpNip.EstSock) (lport : Nat)
    (hw : ∀ e ∈ chain, e.sk_hash = ehashfn e.quad) :
    ((∃ e ∈ chain, e.quad = TcpNip.probeQuad sk lport) →
      TcpNip.__ninet_check_established ehashfn chain sk lport
        = (-TcpNip.EADDRNOTAVAIL, chain, sk)) ∧
    ((∀ e ∈ chain, e.quad ≠ TcpNip.probeQuad sk lport) →
      TcpNip.__ninet_check_established ehashfn chain sk lport
        = (0,
            { sk_hash := ehashfn (TcpNip.probeQuad sk lport),
              quad := TcpNip.probeQuad sk lport } :: chain,
            { sk with inet_num := lport, inet_sport := lport,
                      sk_hash := ehashfn (TcpNip.probeQuad sk lport) })) := by
  have hany : (chain.any fun e =>
      e.sk_hash == ehashfn (TcpNip.probeQuad sk lport) &&
        TcpNip.NINET_MATCH e (TcpNip.probeQuad sk lport)) = true ↔
      ∃ e ∈ chain, e.quad = TcpNip.probeQuad sk lport := by
    rw [List.any_eq_true]
    constructor
    · rintro ⟨e, he, hcond⟩
      rw [Bool.and_eq_true, beq_iff_eq] at hcond
      exact ⟨e, he, by simpa [TcpNip.NINET_MATCH] using hcond.2⟩
    · rintro ⟨e, he, hq⟩
      exact ⟨e, he, by simp [TcpNip.NINET_MATCH, hq, hw e he]⟩
  constructor
  · intro hcol
    simp only [TcpNip.__ninet_check_established]
    rw [if_pos (hany.mpr hcol)]
  · intro hnone
    simp only [TcpNip.__ninet_check_established]
    rw [if_neg]
    intro hc
    obtain ⟨e, he, hq⟩ := hany.mp hc
    exact hnone e he hq

/-- Witness for C8: committing the concrete socket into an empty bucket
chain succeeds and links its identity. -/
theorem check_established_unique_witness :
    (∀ e ∈ ([] : List TcpNip.EhashEntry), e.sk_hash = TcpNip.ehashfnEx e.quad) ∧
    TcpNip.__ninet_check_established TcpNip.ehashfnEx [] TcpNip.estSockEx 80
      = (0,
          [{ sk_hash := TcpNip.ehashfnEx (TcpNip.probeQuad TcpNip.estSockEx 80),
             quad := TcpNip.probeQuad TcpNip.estSockEx 80 }],
          { TcpNip.estSockEx with
              inet_num := 80, inet_sport := 80,
              sk_hash := TcpNip.ehashfnEx (TcpNip.probeQuad TcpNip.estSockEx 80) }) :=
  ⟨fun e he => absurd he (List.not_mem_nil e),
    (check_established_unique TcpNip.ehashfnEx [] TcpNip.estSockEx 80
      (fun e he => absurd he (List.not_mem_nil e))).2
      (fun e he => absurd he (List.not_mem_nil e))⟩

/-- C9: removal from the hash tables is idempotent — unhash on an
already-unhashed socket changes nothing (neither table is touched), and
unhash composed with itself equals a single unhash. -/
theorem unhash_idempotent (st : TcpNip.UnhashSt) :
    (st.sk_hashed = false → TcpNip.ninet_unhash st = st) ∧
    TcpNip.ninet_unhash (TcpNip.ninet_unhash st) = TcpNip.ninet_unhash st := by
  have noop : ∀ u : TcpNip.UnhashSt, u.sk_hashed = false → TcpNip.ninet_unhash u = u := by
    intro u hu
    simp [TcpNip.ninet_unhash, hu]
  refine ⟨noop st, ?_⟩
  by_cases h : st.sk_hashed
  · have hafter : (TcpNip.ninet_unhash st).sk_hashed = false := by
      simp [TcpNip.ninet_unhash, h]
    exact noop _ hafter
  · rw [noop st (by simpa using h)]
    exact noop st (by simpa using h)

/-- Witness for C9: idempotence evaluated on the concrete hashed listening
socket, and the no-op behavior on the same socket once unhashed. -/
theorem unhash_idempotent_witness :
    (TcpNip.ninet_unhash TcpNip.unhashStEx).sk_hashed = false ∧
    TcpNip.ninet_unhash (TcpNip.ninet_unhash TcpNip.unhashStEx)
      = TcpNip.ninet_unhash TcpNip.unhashStEx :=
  ⟨by decide, (unhash_idempotent TcpNip.unhashStEx).2⟩
